import Mathlib

/-!
RebootCSP (SystemConfigurator/CSPs/RebootCSP.cpp)

A shallow embedding of the `RebootCSP` adapter.  The adapter is a thin layer over
three external collaborators whose code is not part of the translation unit:

* `Utils::GetCurrentDateTimeString`, `Utils::WriteRegistryValue`,
  `Utils::ReadRegistryValue` (clock and persistent registry store),
* `MdmProvision::RunExec`, `MdmProvision::RunGetString`, `MdmProvision::RunSet`
  (the provisioning backend).

They are taken as parameters (`Externals σ`) acting on an arbitrary external state `σ`.
Every method of the adapter is a function `World σ → Except Exn α × World σ`: a C++
exception is the `Except.error` result, and the world that comes back is the one the
caller observes after the call, also when the call threw.

`TRACE` / `TRACEP` diagnostics have no functional effect and are not modelled.
-/

set_option linter.dupNamespace false

namespace RebootCSP

/-! ## Data model -/

/-- A C++ exception in flight.  `catch (DMException&)` handles `DMException` (and its
subclasses) only; any other exception type passes through such a handler. -/
inductive Exn where
  | DMException (what : String)
  | other (what : String)
  deriving DecidableEq, Repr

deriving instance DecidableEq for Except

/-- One call made by the adapter to the persistent store or the provisioning backend. -/
inductive Call where
  | WriteRegistryValue (root key value : String)
  | ReadRegistryValue (root key : String)
  | RunExec (path : String)
  | RunGetString (path : String)
  | RunSet (path value : String)
  deriving DecidableEq, Repr

/-- A call together with its outcome: `ok = true` when it returned, `false` when it threw. -/
structure Event where
  call : Call
  ok : Bool
  deriving DecidableEq, Repr

/-- The external collaborators of the adapter, over an external state `σ` (registry
contents, backend nodes, clock, ...), with the signatures of their call sites.  Each one
may change the external state and, the clock apart, may throw. -/
structure Externals (σ : Type) where
  GetCurrentDateTimeString : σ → String × σ
  WriteRegistryValue : String → String → String → σ → Except Exn Unit × σ
  ReadRegistryValue : String → String → σ → Except Exn String × σ
  RunExec : String → σ → Except Exn Unit × σ
  RunGetString : String → σ → Except Exn String × σ
  RunSet : String → String → σ → Except Exn Unit × σ

/-- Program state: the static field `RebootCSP::_lastRebootTime`, the external state, and
the log of calls made to the store and the backend so far (oldest first). -/
structure World (σ : Type) where
  _lastRebootTime : String
  ext : σ
  calls : List Event
  deriving DecidableEq

/-- Whether a call returned normally (`true`) or threw (`false`). -/
def succeeded {α : Type} : Except Exn α → Bool
  | .ok _ => true
  | .error _ => false

/-! ## Call sites of the external collaborators -/

/-- Call site of `Utils::GetCurrentDateTimeString()`. -/
def Utils.GetCurrentDateTimeString {σ : Type} (X : Externals σ) (w : World σ) :
    String × World σ :=
  let r := X.GetCurrentDateTimeString w.ext
  (r.1, { w with ext := r.2 })

/-- Call site of `Utils::WriteRegistryValue(root, key, value)`. -/
def Utils.WriteRegistryValue {σ : Type} (X : Externals σ) (root key value : String)
    (w : World σ) : Except Exn Unit × World σ :=
  let r := X.WriteRegistryValue root key value w.ext
  (r.1, { w with ext := r.2,
                 calls := w.calls ++ [⟨Call.WriteRegistryValue root key value, succeeded r.1⟩] })

/-- Call site of `Utils::ReadRegistryValue(root, key)`. -/
def Utils.ReadRegistryValue {σ : Type} (X : Externals σ) (root key : String)
    (w : World σ) : Except Exn String × World σ :=
  let r := X.ReadRegistryValue root key w.ext
  (r.1, { w with ext := r.2,
                 calls := w.calls ++ [⟨Call.ReadRegistryValue root key, succeeded r.1⟩] })

/-- Call site of `MdmProvision::RunExec(path)`. -/
def MdmProvision.RunExec {σ : Type} (X : Externals σ) (path : String)
    (w : World σ) : Except Exn Unit × World σ :=
  let r := X.RunExec path w.ext
  (r.1, { w with ext := r.2, calls := w.calls ++ [⟨Call.RunExec path, succeeded r.1⟩] })

/-- Call site of `MdmProvision::RunGetString(path)`. -/
def MdmProvision.RunGetString {σ : Type} (X : Externals σ) (path : String)
    (w : World σ) : Except Exn String × World σ :=
  let r := X.RunGetString path w.ext
  (r.1, { w with ext := r.2, calls := w.calls ++ [⟨Call.RunGetString path, succeeded r.1⟩] })

/-- Call site of `MdmProvision::RunSet(path, value)`. -/
def MdmProvision.RunSet {σ : Type} (X : Externals σ) (path value : String)
    (w : World σ) : Except Exn Unit × World σ :=
  let r := X.RunSet path value w.ext
  (r.1, { w with ext := r.2, calls := w.calls ++ [⟨Call.RunSet path value, succeeded r.1⟩] })

/-! ## The adapter -/

/-- Source: `const wchar_t* IoTDMRegistryRoot = L"Software\\Microsoft\\IoTDM";` -/
def IoTDMRegistryRoot : String := "Software\\Microsoft\\IoTDM"

/-- Source: `const wchar_t* IoTDMRegistryLastRebootCmd = L"LastRebootCmd";` -/
def IoTDMRegistryLastRebootCmd : String := "LastRebootCmd"

/-- Constructor `RebootCSP::RebootCSP()`: `_lastRebootTime = Utils::GetCurrentDateTimeString();` -/
def RebootCSP {σ : Type} (X : Externals σ) (w : World σ) : World σ :=
  let r := Utils.GetCurrentDateTimeString X w
  { r.2 with _lastRebootTime := r.1 }

/-- Method `void RebootCSP::ExecRebootNow()`: the timestamp argument is evaluated, the registry
write is made, and only when it returns is the exec request issued. -/
def ExecRebootNow {σ : Type} (X : Externals σ) (w : World σ) : Except Exn Unit × World σ :=
  let t := Utils.GetCurrentDateTimeString X w
  match Utils.WriteRegistryValue X IoTDMRegistryRoot IoTDMRegistryLastRebootCmd t.1 t.2 with
  | (.error e, w1) => (.error e, w1)
  | (.ok (), w1) => MdmProvision.RunExec X "./Device/Vendor/MSFT/Reboot/RebootNow" w1

/-- Method `wstring RebootCSP::GetLastRebootCmdTime()`: the local `lastRebootCmdTime` is
initialised to `L""`; the value returned by `Utils::ReadRegistryValue` inside the `try`
is not assigned to anything; a `DMException` is caught and ignored, any other exception
propagates; the local is returned. -/
def GetLastRebootCmdTime {σ : Type} (X : Externals σ) (w : World σ) :
    Except Exn String × World σ :=
  let lastRebootCmdTime := ""
  match Utils.ReadRegistryValue X IoTDMRegistryRoot IoTDMRegistryLastRebootCmd w with
  | (.ok _, w1) => (.ok lastRebootCmdTime, w1)
  | (.error (.DMException _), w1) => (.ok lastRebootCmdTime, w1)
  | (.error (.other what), w1) => (.error (.other what), w1)

/-- Method `std::wstring RebootCSP::GetLastRebootTime()`: `return _lastRebootTime;` -/
def GetLastRebootTime {σ : Type} (_X : Externals σ) (w : World σ) :
    Except Exn String × World σ :=
  (.ok w._lastRebootTime, w)

/-- Method `wstring RebootCSP::GetSingleScheduleTime()`. -/
def GetSingleScheduleTime {σ : Type} (X : Externals σ) (w : World σ) :
    Except Exn String × World σ :=
  match MdmProvision.RunGetString X "./Device/Vendor/MSFT/Reboot/Schedule/Single" w with
  | (.error e, w1) => (.error e, w1)
  | (.ok time, w1) => (.ok time, w1)

/-- Method `void RebootCSP::SetSingleScheduleTime(const wstring& dailyScheduleTime)`. -/
def SetSingleScheduleTime {σ : Type} (X : Externals σ) (dailyScheduleTime : String)
    (w : World σ) : Except Exn Unit × World σ :=
  MdmProvision.RunSet X "./Device/Vendor/MSFT/Reboot/Schedule/Single" dailyScheduleTime w

/-- Method `wstring RebootCSP::GetDailyScheduleTime()`. -/
def GetDailyScheduleTime {σ : Type} (X : Externals σ) (w : World σ) :
    Except Exn String × World σ :=
  match MdmProvision.RunGetString X
      "./Device/Vendor/MSFT/Reboot/Schedule/DailyRecurrent" w with
  | (.error e, w1) => (.error e, w1)
  | (.ok time, w1) => (.ok time, w1)

/-- Method `void RebootCSP::SetDailyScheduleTime(const wstring& dailyScheduleTime)`. -/
def SetDailyScheduleTime {σ : Type} (X : Externals σ) (dailyScheduleTime : String)
    (w : World σ) : Except Exn Unit × World σ :=
  MdmProvision.RunSet X "./Device/Vendor/MSFT/Reboot/Schedule/DailyRecurrent"
    dailyScheduleTime w

/-! ## Runs of operations -/

/-- The seven methods a caller can invoke on the constructed instance. -/
inductive Op where
  | ExecRebootNow
  | GetLastRebootCmdTime
  | GetLastRebootTime
  | GetSingleScheduleTime
  | SetSingleScheduleTime (value : String)
  | GetDailyScheduleTime
  | SetDailyScheduleTime (value : String)
  deriving DecidableEq, Repr

/-- The world a caller is left with after invoking one method, whether it returned or
threw (the caller catches and carries on). -/
def runOp {σ : Type} (X : Externals σ) : Op → World σ → World σ
  | .ExecRebootNow, w => (ExecRebootNow X w).2
  | .GetLastRebootCmdTime, w => (GetLastRebootCmdTime X w).2
  | .GetLastRebootTime, w => (GetLastRebootTime X w).2
  | .GetSingleScheduleTime, w => (GetSingleScheduleTime X w).2
  | .SetSingleScheduleTime v, w => (SetSingleScheduleTime X v w).2
  | .GetDailyScheduleTime, w => (GetDailyScheduleTime X w).2
  | .SetDailyScheduleTime v, w => (SetDailyScheduleTime X v w).2

/-- One step of a program's life after construction: a method call, or an arbitrary
change of the outside world (time passing, another process touching the device). -/
inductive Step (σ : Type) where
  | call (op : Op)
  | outside (f : σ → σ)

/-- Run one step. -/
def Step.run {σ : Type} (X : Externals σ) : Step σ → World σ → World σ
  | .call op, w => runOp X op w
  | .outside f, w => { w with ext := f w.ext }

/-- Run a finite sequence of steps, first to last. -/
def runSteps {σ : Type} (X : Externals σ) : List (Step σ) → World σ → World σ
  | [], w => w
  | s :: rest, w => runSteps X rest (s.run X w)

/-- The events logged between world `w` and a later world `w1`. -/
def newCalls {σ : Type} (w w1 : World σ) : List Event :=
  w1.calls.drop w.calls.length

/-- Some event of the list is a registry write of the last-reboot-command value that
returned normally. -/
def writesLastRebootCmd (es : List Event) : Bool :=
  es.any fun e =>
    match e.call with
    | .WriteRegistryValue root key _ =>
        e.ok && root == IoTDMRegistryRoot && key == IoTDMRegistryLastRebootCmd
    | _ => false

/-- Some event of the list is an exec request on the reboot-now path that returned
normally. -/
def execRebootNowSucceeds (es : List Event) : Bool :=
  es.any fun e => e.ok && e.call == Call.RunExec "./Device/Vendor/MSFT/Reboot/RebootNow"

/-! ## Properties of backends used as hypotheses -/

/-- A provisioning backend that fails every call. -/
def FailsEveryCall {σ : Type} (X : Externals σ) : Prop :=
  (∀ (path : String) (s : σ), succeeded (X.RunExec path s).1 = false) ∧
  (∀ (path : String) (s : σ), succeeded (X.RunGetString path s).1 = false) ∧
  (∀ (path value : String) (s : σ), succeeded (X.RunSet path value s).1 = false)

/-! ## Test doubles -/

/-- External state of the test double: upcoming clock readings, registry contents as
`(root, key, value)` rows, backend nodes as `(path, value)` rows, and two switches that
make registry writes, respectively every backend call, fail. -/
structure Fake where
  clock : List String
  registry : List (String × String × String)
  nodes : List (String × String)
  storeWritable : Bool
  backendUp : Bool
  deriving DecidableEq, Repr

/-- A test double for the external collaborators: a registry that stores rows and fails
reads of absent keys, a backend that stores and echoes values per path, a clock that
hands out the upcoming readings in turn. -/
def fake : Externals Fake where
  GetCurrentDateTimeString s := (s.clock.headD "", { s with clock := s.clock.tail })
  WriteRegistryValue root key value s :=
    if s.storeWritable then
      (.ok (), { s with registry :=
        (root, key, value) :: s.registry.filter fun e => !(e.1 == root && e.2.1 == key) })
    else (.error (.DMException "RegSetValueEx failed"), s)
  ReadRegistryValue root key s :=
    match s.registry.find? fun e => e.1 == root && e.2.1 == key with
    | some e => (.ok e.2.2, s)
    | none => (.error (.DMException "RegGetValue failed"), s)
  RunExec _ s :=
    if s.backendUp then (.ok (), s) else (.error (.DMException "exec failed"), s)
  RunGetString path s :=
    if s.backendUp then
      match s.nodes.find? fun e => e.1 == path with
      | some e => (.ok e.2, s)
      | none => (.error (.DMException "node not found"), s)
    else (.error (.DMException "get failed"), s)
  RunSet path value s :=
    if s.backendUp then
      (.ok (), { s with nodes := (path, value) :: s.nodes.filter fun e => !(e.1 == path) })
    else (.error (.DMException "set failed"), s)

/-- A backend test double that fails every exec, get and set, each with an error of its
own; its registry accepts writes and fails reads. -/
def failing : Externals Unit where
  GetCurrentDateTimeString s := ("2017-03-01T10:00:00Z", s)
  WriteRegistryValue _ _ _ s := (.ok (), s)
  ReadRegistryValue _ _ s := (.error (.DMException "read failed"), s)
  RunExec path s := (.error (.DMException ("exec failed: " ++ path)), s)
  RunGetString path s := (.error (.DMException ("get failed: " ++ path)), s)
  RunSet path _ s := (.error (.other ("set failed: " ++ path)), s)

/-- A device that has received a reboot command before: the registry holds a
last-reboot-command timestamp. -/
def rebootedBefore : World Fake where
  _lastRebootTime := "2017-03-01T10:00:00Z"
  ext := { clock := ["2017-03-02T08:30:00Z"]
           registry := [("Software\\Microsoft\\IoTDM", "LastRebootCmd", "2017-02-27T23:15:00Z")]
           nodes := []
           storeWritable := true
           backendUp := true }
  calls := []

/-- A freshly provisioned device: empty registry, backend up. -/
def fresh : World Fake where
  _lastRebootTime := ""
  ext := { clock := ["2017-03-01T10:00:00Z", "2017-03-02T08:30:00Z"]
           registry := []
           nodes := []
           storeWritable := true
           backendUp := true }
  calls := []


/-- A device whose provisioning backend is down while its registry is writable. -/
def backendDown : World Fake where
  _lastRebootTime := "2017-03-01T10:00:00Z"
  ext := { clock := ["2017-03-02T08:30:00Z"]
           registry := []
           nodes := []
           storeWritable := true
           backendUp := false }
  calls := []

/-- A device whose registry rejects writes while its backend is up. -/
def readOnlyStore : World Fake where
  _lastRebootTime := "2017-03-01T10:00:00Z"
  ext := { clock := ["2017-03-02T08:30:00Z"]
           registry := []
           nodes := []
           storeWritable := false
           backendUp := true }
  calls := []

/-- The starting world for the always-failing backend. -/
def failingStart : World Unit where
  _lastRebootTime := "2017-03-01T10:00:00Z"
  ext := ()
  calls := []

/-- A call is either no registry access at all, or a registry access whose root is
`Software\Microsoft\IoTDM` (backslash separators) and whose key is `LastRebootCmd`. -/
def usesFixedKey : Call → Bool
  | .WriteRegistryValue root key _ =>
      root == "Software\\Microsoft\\IoTDM" && key == "LastRebootCmd"
  | .ReadRegistryValue root key =>
      root == "Software\\Microsoft\\IoTDM" && key == "LastRebootCmd"
  | _ => true

/-! ## Helper lemmas -/

/-- Events appended to the log are exactly the new calls. -/
theorem newCalls_of_append {σ : Type} (w w1 : World σ) (l : List Event)
    (h : w1.calls = w.calls ++ l) : newCalls w w1 = l := by
  simp [newCalls, h]

/-- What `GetLastRebootCmdTime` does when the registry read returns normally. -/
theorem GetLastRebootCmdTime_of_read_ok {σ : Type} (X : Externals σ) (w : World σ)
    (v : String)
    (h : (X.ReadRegistryValue IoTDMRegistryRoot IoTDMRegistryLastRebootCmd w.ext).1 = .ok v) :
    GetLastRebootCmdTime X w =
      (.ok "", { w with
        ext := (X.ReadRegistryValue IoTDMRegistryRoot IoTDMRegistryLastRebootCmd w.ext).2,
        calls := w.calls ++
          [⟨Call.ReadRegistryValue IoTDMRegistryRoot IoTDMRegistryLastRebootCmd, true⟩] }) := by
  simp [GetLastRebootCmdTime, Utils.ReadRegistryValue, h, succeeded]

/-- What `GetLastRebootCmdTime` does when the registry read throws a `DMException`. -/
theorem GetLastRebootCmdTime_of_DMException {σ : Type} (X : Externals σ) (w : World σ)
    (what : String)
    (h : (X.ReadRegistryValue IoTDMRegistryRoot IoTDMRegistryLastRebootCmd w.ext).1 =
      .error (.DMException what)) :
    GetLastRebootCmdTime X w =
      (.ok "", { w with
        ext := (X.ReadRegistryValue IoTDMRegistryRoot IoTDMRegistryLastRebootCmd w.ext).2,
        calls := w.calls ++
          [⟨Call.ReadRegistryValue IoTDMRegistryRoot IoTDMRegistryLastRebootCmd, false⟩] }) := by
  simp [GetLastRebootCmdTime, Utils.ReadRegistryValue, h, succeeded]

/-- What `ExecRebootNow` does when the registry write throws. -/
theorem ExecRebootNow_of_write_error {σ : Type} (X : Externals σ) (w : World σ) (e : Exn)
    (h : (X.WriteRegistryValue IoTDMRegistryRoot IoTDMRegistryLastRebootCmd
      (X.GetCurrentDateTimeString w.ext).1 (X.GetCurrentDateTimeString w.ext).2).1 = .error e) :
    ExecRebootNow X w =
      (.error e, { w with
        ext := (X.WriteRegistryValue IoTDMRegistryRoot IoTDMRegistryLastRebootCmd
          (X.GetCurrentDateTimeString w.ext).1 (X.GetCurrentDateTimeString w.ext).2).2,
        calls := w.calls ++
          [⟨Call.WriteRegistryValue IoTDMRegistryRoot IoTDMRegistryLastRebootCmd
            (X.GetCurrentDateTimeString w.ext).1, false⟩] }) := by
  simp [ExecRebootNow, Utils.GetCurrentDateTimeString, Utils.WriteRegistryValue, h, succeeded]

/-- What `ExecRebootNow` does when the registry write returns normally. -/
theorem ExecRebootNow_of_write_ok {σ : Type} (X : Externals σ) (w : World σ)
    (h : (X.WriteRegistryValue IoTDMRegistryRoot IoTDMRegistryLastRebootCmd
      (X.GetCurrentDateTimeString w.ext).1 (X.GetCurrentDateTimeString w.ext).2).1 = .ok ()) :
    ExecRebootNow X w =
      ((X.RunExec "./Device/Vendor/MSFT/Reboot/RebootNow"
          (X.WriteRegistryValue IoTDMRegistryRoot IoTDMRegistryLastRebootCmd
            (X.GetCurrentDateTimeString w.ext).1 (X.GetCurrentDateTimeString w.ext).2).2).1,
       { w with
        ext := (X.RunExec "./Device/Vendor/MSFT/Reboot/RebootNow"
          (X.WriteRegistryValue IoTDMRegistryRoot IoTDMRegistryLastRebootCmd
            (X.GetCurrentDateTimeString w.ext).1 (X.GetCurrentDateTimeString w.ext).2).2).2,
        calls := w.calls ++
          [⟨Call.WriteRegistryValue IoTDMRegistryRoot IoTDMRegistryLastRebootCmd
            (X.GetCurrentDateTimeString w.ext).1, true⟩,
           ⟨Call.RunExec "./Device/Vendor/MSFT/Reboot/RebootNow",
            succeeded (X.RunExec "./Device/Vendor/MSFT/Reboot/RebootNow"
              (X.WriteRegistryValue IoTDMRegistryRoot IoTDMRegistryLastRebootCmd
                (X.GetCurrentDateTimeString w.ext).1
                (X.GetCurrentDateTimeString w.ext).2).2).1⟩] }) := by
  simp [ExecRebootNow, Utils.GetCurrentDateTimeString, Utils.WriteRegistryValue,
    MdmProvision.RunExec, h, succeeded]

/-- What `GetLastRebootCmdTime` does when the registry read throws something that is not
a `DMException`: the handler does not apply and the exception reaches the caller. -/
theorem GetLastRebootCmdTime_of_other {σ : Type} (X : Externals σ) (w : World σ)
    (what : String)
    (h : (X.ReadRegistryValue IoTDMRegistryRoot IoTDMRegistryLastRebootCmd w.ext).1 =
      .error (.other what)) :
    GetLastRebootCmdTime X w =
      (.error (.other what), { w with
        ext := (X.ReadRegistryValue IoTDMRegistryRoot IoTDMRegistryLastRebootCmd w.ext).2,
        calls := w.calls ++
          [⟨Call.ReadRegistryValue IoTDMRegistryRoot IoTDMRegistryLastRebootCmd, false⟩] }) := by
  simp [GetLastRebootCmdTime, Utils.ReadRegistryValue, h, succeeded]

/-- The getters forward the result of the backend get unchanged. -/
theorem GetSingleScheduleTime_eq {σ : Type} (X : Externals σ) (w : World σ) :
    GetSingleScheduleTime X w =
      MdmProvision.RunGetString X "./Device/Vendor/MSFT/Reboot/Schedule/Single" w := by
  unfold GetSingleScheduleTime
  split <;> simp_all

/-- The getters forward the result of the backend get unchanged. -/
theorem GetDailyScheduleTime_eq {σ : Type} (X : Externals σ) (w : World σ) :
    GetDailyScheduleTime X w =
      MdmProvision.RunGetString X "./Device/Vendor/MSFT/Reboot/Schedule/DailyRecurrent" w := by
  unfold GetDailyScheduleTime
  split <;> simp_all

/-- Every method leaves the static field alone and only appends to the call log. -/
theorem runOp_frame {σ : Type} (X : Externals σ) (op : Op) (w : World σ) :
    (runOp X op w)._lastRebootTime = w._lastRebootTime ∧
    ∃ l, (runOp X op w).calls = w.calls ++ l := by
  cases op
  case ExecRebootNow =>
    cases h : (X.WriteRegistryValue IoTDMRegistryRoot IoTDMRegistryLastRebootCmd
      (X.GetCurrentDateTimeString w.ext).1 (X.GetCurrentDateTimeString w.ext).2).1 with
    | error e => simp [runOp, ExecRebootNow_of_write_error X w e h]
    | ok u => cases u; simp [runOp, ExecRebootNow_of_write_ok X w h]
  case GetLastRebootCmdTime =>
    cases h : (X.ReadRegistryValue IoTDMRegistryRoot IoTDMRegistryLastRebootCmd w.ext).1 with
    | ok v => simp [runOp, GetLastRebootCmdTime_of_read_ok X w v h]
    | error e =>
      cases e with
      | DMException what => simp [runOp, GetLastRebootCmdTime_of_DMException X w what h]
      | other what => simp [runOp, GetLastRebootCmdTime_of_other X w what h]
  case GetLastRebootTime => exact ⟨rfl, [], by simp [runOp, GetLastRebootTime]⟩
  case GetSingleScheduleTime =>
    simp [runOp, GetSingleScheduleTime_eq, MdmProvision.RunGetString]
  case SetSingleScheduleTime v =>
    simp [runOp, SetSingleScheduleTime, MdmProvision.RunSet]
  case GetDailyScheduleTime =>
    simp [runOp, GetDailyScheduleTime_eq, MdmProvision.RunGetString]
  case SetDailyScheduleTime v =>
    simp [runOp, SetDailyScheduleTime, MdmProvision.RunSet]

/-- No step after construction writes the static field. -/
theorem runSteps_lastRebootTime {σ : Type} (X : Externals σ) (steps : List (Step σ))
    (w : World σ) : (runSteps X steps w)._lastRebootTime = w._lastRebootTime := by
  induction steps generalizing w with
  | nil => rfl
  | cons s rest ih =>
    rw [runSteps, ih]
    cases s with
    | call op => exact (runOp_frame X op w).1
    | outside f => rfl

/-- The failing test double fails every backend call. -/
theorem failing_failsEveryCall : FailsEveryCall failing :=
  ⟨fun _ _ => rfl, fun _ _ => rfl, fun _ _ _ => rfl⟩

/-! ## Claims -/

/-- C1 does not hold of the code.  On a device whose registry holds the
last-reboot-command value `2017-02-27T23:15:00Z`, the registry read made by
`GetLastRebootCmdTime` returns that value, yet `GetLastRebootCmdTime` returns the empty
string: the value read is never assigned to the local that is returned. -/
theorem GetLastRebootCmdTime_drops_stored_value :
    (fake.ReadRegistryValue IoTDMRegistryRoot IoTDMRegistryLastRebootCmd
      rebootedBefore.ext).1 = .ok "2017-02-27T23:15:00Z" ∧
    (GetLastRebootCmdTime fake rebootedBefore).1 = .ok "" ∧
    (GetLastRebootCmdTime fake rebootedBefore).1 ≠ .ok "2017-02-27T23:15:00Z" := by
  decide

/-- C2.  Whenever the registry read of the last-reboot-command key throws a
`DMException`, `GetLastRebootCmdTime` returns normally with the empty string; the only
call it makes is that one read (no write), the static field is untouched, and the
external state is the one the read itself left, so a store that a failed read leaves as
it was is unchanged afterwards. -/
theorem GetLastRebootCmdTime_swallows_read_failure {σ : Type} (X : Externals σ)
    (w : World σ) (what : String)
    (hfail : (X.ReadRegistryValue IoTDMRegistryRoot IoTDMRegistryLastRebootCmd w.ext).1 =
      .error (.DMException what)) :
    (GetLastRebootCmdTime X w).1 = .ok "" ∧
    newCalls w (GetLastRebootCmdTime X w).2 =
      [⟨Call.ReadRegistryValue IoTDMRegistryRoot IoTDMRegistryLastRebootCmd, false⟩] ∧
    (GetLastRebootCmdTime X w).2._lastRebootTime = w._lastRebootTime ∧
    (GetLastRebootCmdTime X w).2.ext =
      (X.ReadRegistryValue IoTDMRegistryRoot IoTDMRegistryLastRebootCmd w.ext).2 ∧
    ((X.ReadRegistryValue IoTDMRegistryRoot IoTDMRegistryLastRebootCmd w.ext).2 = w.ext →
      (GetLastRebootCmdTime X w).2.ext = w.ext) := by
  rw [GetLastRebootCmdTime_of_DMException X w what hfail]
  refine ⟨rfl, newCalls_of_append _ _ _ rfl, rfl, rfl, fun h => h⟩

/-- Witness for C2: on a fresh device the key is absent, the read throws, and
`GetLastRebootCmdTime` returns the empty string and leaves the whole external state,
registry included, as it was. -/
theorem GetLastRebootCmdTime_swallows_read_failure_witness :
    (fake.ReadRegistryValue IoTDMRegistryRoot IoTDMRegistryLastRebootCmd fresh.ext).1 =
      .error (.DMException "RegGetValue failed") ∧
    (GetLastRebootCmdTime fake fresh).1 = .ok "" ∧
    (GetLastRebootCmdTime fake fresh).2.ext = fresh.ext :=
  ⟨by decide,
   (GetLastRebootCmdTime_swallows_read_failure fake fresh "RegGetValue failed"
      (by decide)).1,
   (GetLastRebootCmdTime_swallows_read_failure fake fresh "RegGetValue failed"
      (by decide)).2.2.2.2 (by decide)⟩

/-- C3.  After construction in any world, and after any finite sequence of method calls
(succeeding or throwing) interleaved with arbitrary changes of the outside world,
`GetLastRebootTime` returns normally, returns exactly the clock value read by the
constructor, and changes nothing. -/
theorem GetLastRebootTime_is_construction_time {σ : Type} (X : Externals σ)
    (w0 : World σ) (steps : List (Step σ)) :
    GetLastRebootTime X (runSteps X steps (RebootCSP X w0)) =
      (.ok (X.GetCurrentDateTimeString w0.ext).1, runSteps X steps (RebootCSP X w0)) := by
  simp [GetLastRebootTime, runSteps_lastRebootTime, RebootCSP, Utils.GetCurrentDateTimeString]

/-- C4.  When the registry write and the backend exec both return normally,
`ExecRebootNow` returns normally and makes exactly two calls, in this order: a write of
the timestamp just read from the clock under `IoTDMRegistryRoot` /
`IoTDMRegistryLastRebootCmd`, then one exec on `./Device/Vendor/MSFT/Reboot/RebootNow`.
Both calls really act on the outside world: the external state afterwards is the one
obtained by reading the clock, then performing the write, then performing the exec on
the state the write left; the static field is untouched.  The root and key are the ones
`GetLastRebootCmdTime` reads in every world. -/
theorem ExecRebootNow_writes_then_execs {σ : Type} (X : Externals σ) (w : World σ)
    (hwrite : (X.WriteRegistryValue IoTDMRegistryRoot IoTDMRegistryLastRebootCmd
      (X.GetCurrentDateTimeString w.ext).1 (X.GetCurrentDateTimeString w.ext).2).1 = .ok ())
    (hexec : (X.RunExec "./Device/Vendor/MSFT/Reboot/RebootNow"
      (X.WriteRegistryValue IoTDMRegistryRoot IoTDMRegistryLastRebootCmd
        (X.GetCurrentDateTimeString w.ext).1 (X.GetCurrentDateTimeString w.ext).2).2).1 =
      .ok ()) :
    (ExecRebootNow X w).1 = .ok () ∧
    newCalls w (ExecRebootNow X w).2 =
      [⟨Call.WriteRegistryValue IoTDMRegistryRoot IoTDMRegistryLastRebootCmd
          (X.GetCurrentDateTimeString w.ext).1, true⟩,
       ⟨Call.RunExec "./Device/Vendor/MSFT/Reboot/RebootNow", true⟩] ∧
    (ExecRebootNow X w).2.ext =
      (X.RunExec "./Device/Vendor/MSFT/Reboot/RebootNow"
        (X.WriteRegistryValue IoTDMRegistryRoot IoTDMRegistryLastRebootCmd
          (X.GetCurrentDateTimeString w.ext).1 (X.GetCurrentDateTimeString w.ext).2).2).2 ∧
    (ExecRebootNow X w).2._lastRebootTime = w._lastRebootTime ∧
    ∀ w1 : World σ, (newCalls w1 (GetLastRebootCmdTime X w1).2).map Event.call =
      [Call.ReadRegistryValue IoTDMRegistryRoot IoTDMRegistryLastRebootCmd] := by
  refine ⟨?_, ?_, ?_, ?_, ?_⟩
  · rw [ExecRebootNow_of_write_ok X w hwrite, hexec]
  · rw [ExecRebootNow_of_write_ok X w hwrite, hexec]
    exact newCalls_of_append _ _ _ rfl
  · rw [ExecRebootNow_of_write_ok X w hwrite]
  · rw [ExecRebootNow_of_write_ok X w hwrite]
  · intro w1
    cases h : (X.ReadRegistryValue IoTDMRegistryRoot IoTDMRegistryLastRebootCmd w1.ext).1 with
    | ok v =>
      rw [GetLastRebootCmdTime_of_read_ok X w1 v h, newCalls_of_append _ _ _ rfl]; rfl
    | error e =>
      cases e with
      | DMException what =>
        rw [GetLastRebootCmdTime_of_DMException X w1 what h, newCalls_of_append _ _ _ rfl]
        rfl
      | other what =>
        rw [GetLastRebootCmdTime_of_other X w1 what h, newCalls_of_append _ _ _ rfl]; rfl

/-- Witness for C4: on a fresh device with a writable registry and a backend that is up,
`ExecRebootNow` writes the clock reading `2017-03-01T10:00:00Z` and then issues the
exec request; the registry, empty before, holds that timestamp under the fixed root and
key afterwards, and the clock has moved on to its next reading. -/
theorem ExecRebootNow_writes_then_execs_witness :
    (ExecRebootNow fake fresh).1 = .ok () ∧
    newCalls fresh (ExecRebootNow fake fresh).2 =
      [⟨Call.WriteRegistryValue IoTDMRegistryRoot IoTDMRegistryLastRebootCmd
          (fake.GetCurrentDateTimeString fresh.ext).1, true⟩,
       ⟨Call.RunExec "./Device/Vendor/MSFT/Reboot/RebootNow", true⟩] ∧
    (fake.GetCurrentDateTimeString fresh.ext).1 = "2017-03-01T10:00:00Z" ∧
    fresh.ext.registry = [] ∧
    (ExecRebootNow fake fresh).2.ext =
      { clock := ["2017-03-02T08:30:00Z"]
        registry := [("Software\\Microsoft\\IoTDM", "LastRebootCmd", "2017-03-01T10:00:00Z")]
        nodes := []
        storeWritable := true
        backendUp := true } :=
  ⟨(ExecRebootNow_writes_then_execs fake fresh (by decide) (by decide)).1,
   (ExecRebootNow_writes_then_execs fake fresh (by decide) (by decide)).2.1,
   by decide,
   by decide,
   (ExecRebootNow_writes_then_execs fake fresh (by decide) (by decide)).2.2.1.trans
     (by decide)⟩

/-- C6.  For every string `v`, in every world and whatever the backend answers,
`SetDailyScheduleTime v` makes exactly one call, a set on
`./Device/Vendor/MSFT/Reboot/Schedule/DailyRecurrent` carrying `v` itself; its result and
the external state afterwards are those of that one call, and the static field is
untouched. -/
theorem SetDailyScheduleTime_single_set {σ : Type} (X : Externals σ) (v : String)
    (w : World σ) :
    newCalls w (SetDailyScheduleTime X v w).2 =
      [⟨Call.RunSet "./Device/Vendor/MSFT/Reboot/Schedule/DailyRecurrent" v,
        succeeded (X.RunSet "./Device/Vendor/MSFT/Reboot/Schedule/DailyRecurrent" v w.ext).1⟩] ∧
    (SetDailyScheduleTime X v w).1 =
      (X.RunSet "./Device/Vendor/MSFT/Reboot/Schedule/DailyRecurrent" v w.ext).1 ∧
    (SetDailyScheduleTime X v w).2.ext =
      (X.RunSet "./Device/Vendor/MSFT/Reboot/Schedule/DailyRecurrent" v w.ext).2 ∧
    (SetDailyScheduleTime X v w).2._lastRebootTime = w._lastRebootTime :=
  ⟨newCalls_of_append _ _ _ rfl, rfl, rfl, rfl⟩

/-- C7.  Against a provisioning backend that fails every call, each of
`GetSingleScheduleTime`, `GetDailyScheduleTime`, `SetSingleScheduleTime v`,
`SetDailyScheduleTime v` throws, and so does `ExecRebootNow` once its registry write has
returned; what each throws is the very result of its one backend call, and that call is
made once. -/
theorem backend_failures_propagate {σ : Type} (X : Externals σ) (h : FailsEveryCall X)
    (v : String) (w : World σ) :
    ((GetSingleScheduleTime X w).1 =
        (X.RunGetString "./Device/Vendor/MSFT/Reboot/Schedule/Single" w.ext).1 ∧
      succeeded (GetSingleScheduleTime X w).1 = false ∧
      newCalls w (GetSingleScheduleTime X w).2 =
        [⟨Call.RunGetString "./Device/Vendor/MSFT/Reboot/Schedule/Single", false⟩]) ∧
    ((GetDailyScheduleTime X w).1 =
        (X.RunGetString "./Device/Vendor/MSFT/Reboot/Schedule/DailyRecurrent" w.ext).1 ∧
      succeeded (GetDailyScheduleTime X w).1 = false ∧
      newCalls w (GetDailyScheduleTime X w).2 =
        [⟨Call.RunGetString "./Device/Vendor/MSFT/Reboot/Schedule/DailyRecurrent", false⟩]) ∧
    ((SetSingleScheduleTime X v w).1 =
        (X.RunSet "./Device/Vendor/MSFT/Reboot/Schedule/Single" v w.ext).1 ∧
      succeeded (SetSingleScheduleTime X v w).1 = false ∧
      newCalls w (SetSingleScheduleTime X v w).2 =
        [⟨Call.RunSet "./Device/Vendor/MSFT/Reboot/Schedule/Single" v, false⟩]) ∧
    ((SetDailyScheduleTime X v w).1 =
        (X.RunSet "./Device/Vendor/MSFT/Reboot/Schedule/DailyRecurrent" v w.ext).1 ∧
      succeeded (SetDailyScheduleTime X v w).1 = false ∧
      newCalls w (SetDailyScheduleTime X v w).2 =
        [⟨Call.RunSet "./Device/Vendor/MSFT/Reboot/Schedule/DailyRecurrent" v, false⟩]) ∧
    ((X.WriteRegistryValue IoTDMRegistryRoot IoTDMRegistryLastRebootCmd
        (X.GetCurrentDateTimeString w.ext).1 (X.GetCurrentDateTimeString w.ext).2).1 = .ok () →
      (ExecRebootNow X w).1 =
        (X.RunExec "./Device/Vendor/MSFT/Reboot/RebootNow"
          (X.WriteRegistryValue IoTDMRegistryRoot IoTDMRegistryLastRebootCmd
            (X.GetCurrentDateTimeString w.ext).1 (X.GetCurrentDateTimeString w.ext).2).2).1 ∧
      succeeded (ExecRebootNow X w).1 = false ∧
      newCalls w (ExecRebootNow X w).2 =
        [⟨Call.WriteRegistryValue IoTDMRegistryRoot IoTDMRegistryLastRebootCmd
            (X.GetCurrentDateTimeString w.ext).1, true⟩,
         ⟨Call.RunExec "./Device/Vendor/MSFT/Reboot/RebootNow", false⟩]) := by
  obtain ⟨hexec, hget, hset⟩ := h
  refine ⟨⟨?_, ?_, ?_⟩, ⟨?_, ?_, ?_⟩, ⟨rfl, ?_, ?_⟩, ⟨rfl, ?_, ?_⟩, fun hw => ⟨?_, ?_, ?_⟩⟩
  · rw [GetSingleScheduleTime_eq]; rfl
  · rw [GetSingleScheduleTime_eq]; exact hget _ _
  · apply newCalls_of_append
    simp [GetSingleScheduleTime_eq, MdmProvision.RunGetString, hget]
  · rw [GetDailyScheduleTime_eq]; rfl
  · rw [GetDailyScheduleTime_eq]; exact hget _ _
  · apply newCalls_of_append
    simp [GetDailyScheduleTime_eq, MdmProvision.RunGetString, hget]
  · exact hset _ _ _
  · apply newCalls_of_append
    simp [SetSingleScheduleTime, MdmProvision.RunSet, hset]
  · exact hset _ _ _
  · apply newCalls_of_append
    simp [SetDailyScheduleTime, MdmProvision.RunSet, hset]
  · rw [ExecRebootNow_of_write_ok X w hw]
  · rw [ExecRebootNow_of_write_ok X w hw]; exact hexec _ _
  · apply newCalls_of_append
    rw [ExecRebootNow_of_write_ok X w hw]
    simp [hexec]

/-- Witness for C7: against the always-failing test double the getter throws the
backend's own error for its path, and the setter throws the backend's own (non-DM) error. -/
theorem backend_failures_propagate_witness :
    FailsEveryCall failing ∧
    (GetSingleScheduleTime failing failingStart).1 =
      .error (.DMException "get failed: ./Device/Vendor/MSFT/Reboot/Schedule/Single") ∧
    (SetDailyScheduleTime failing "03:00" failingStart).1 =
      .error (.other "set failed: ./Device/Vendor/MSFT/Reboot/Schedule/DailyRecurrent") ∧
    (ExecRebootNow failing failingStart).1 =
      .error (.DMException "exec failed: ./Device/Vendor/MSFT/Reboot/RebootNow") :=
  ⟨failing_failsEveryCall,
   (backend_failures_propagate failing failing_failsEveryCall "03:00" failingStart).1.1.trans
     (by decide),
   (backend_failures_propagate failing failing_failsEveryCall "03:00"
     failingStart).2.2.2.1.1.trans (by decide),
   ((backend_failures_propagate failing failing_failsEveryCall "03:00"
     failingStart).2.2.2.2 (by decide)).1.trans (by decide)⟩

/-- C8 as written does not hold: the registry read made by `GetLastRebootCmdTime` uses
the root `Software\Microsoft\IoTDM`, with backslash separators, which is not the string
`Software/Microsoft/IoTDM`. -/
theorem registry_root_is_not_forward_slashed :
    (newCalls rebootedBefore (GetLastRebootCmdTime fake rebootedBefore).2).map Event.call =
      [Call.ReadRegistryValue "Software\\Microsoft\\IoTDM" "LastRebootCmd"] ∧
    (newCalls rebootedBefore (GetLastRebootCmdTime fake rebootedBefore).2).map Event.call ≠
      [Call.ReadRegistryValue "Software/Microsoft/IoTDM" "LastRebootCmd"] ∧
    IoTDMRegistryRoot ≠ "Software/Microsoft/IoTDM" := by
  decide

/-- C8, amended.  Every registry access made by any method in any world uses exactly the
root `Software\Microsoft\IoTDM` (backslash separators) and exactly the key
`LastRebootCmd`: the read of `GetLastRebootCmdTime` and the write of `ExecRebootNow`
(its first call) both do, and the constructor makes no call at all. -/
theorem registry_accesses_use_fixed_root_and_key {σ : Type} (X : Externals σ)
    (w : World σ) (op : Op) :
    (newCalls w (runOp X op w)).all (fun e => usesFixedKey e.call) = true ∧
    (newCalls w (GetLastRebootCmdTime X w).2).map Event.call =
      [Call.ReadRegistryValue "Software\\Microsoft\\IoTDM" "LastRebootCmd"] ∧
    ((newCalls w (ExecRebootNow X w).2).map Event.call).head? =
      some (Call.WriteRegistryValue "Software\\Microsoft\\IoTDM" "LastRebootCmd"
        (X.GetCurrentDateTimeString w.ext).1) ∧
    (RebootCSP X w).calls = w.calls := by
  have hget : (newCalls w (GetLastRebootCmdTime X w).2).map Event.call =
      [Call.ReadRegistryValue "Software\\Microsoft\\IoTDM" "LastRebootCmd"] := by
    cases h : (X.ReadRegistryValue IoTDMRegistryRoot IoTDMRegistryLastRebootCmd w.ext).1 with
    | ok v =>
      rw [GetLastRebootCmdTime_of_read_ok X w v h, newCalls_of_append _ _ _ rfl]; rfl
    | error e =>
      cases e with
      | DMException what =>
        rw [GetLastRebootCmdTime_of_DMException X w what h, newCalls_of_append _ _ _ rfl]
        rfl
      | other what =>
        rw [GetLastRebootCmdTime_of_other X w what h, newCalls_of_append _ _ _ rfl]; rfl
  refine ⟨?_, hget, ?_, rfl⟩
  · cases op
    case ExecRebootNow =>
      cases h : (X.WriteRegistryValue IoTDMRegistryRoot IoTDMRegistryLastRebootCmd
        (X.GetCurrentDateTimeString w.ext).1 (X.GetCurrentDateTimeString w.ext).2).1 with
      | error e =>
        simp only [runOp]
        rw [ExecRebootNow_of_write_error X w e h, newCalls_of_append _ _ _ rfl]
        simp [usesFixedKey, IoTDMRegistryRoot, IoTDMRegistryLastRebootCmd]
      | ok u =>
        cases u
        simp only [runOp]
        rw [ExecRebootNow_of_write_ok X w h, newCalls_of_append _ _ _ rfl]
        simp [usesFixedKey, IoTDMRegistryRoot, IoTDMRegistryLastRebootCmd]
    case GetLastRebootCmdTime =>
      have := congrArg (fun l => l.all usesFixedKey) hget
      simpa [runOp, List.all_map, usesFixedKey] using this
    case GetLastRebootTime => simp [runOp, GetLastRebootTime, newCalls]
    case GetSingleScheduleTime =>
      simp only [runOp, GetSingleScheduleTime_eq]
      rw [newCalls_of_append _ _ _ rfl]; rfl
    case SetSingleScheduleTime v =>
      simp only [runOp, SetSingleScheduleTime]
      rw [newCalls_of_append _ _ _ rfl]; rfl
    case GetDailyScheduleTime =>
      simp only [runOp, GetDailyScheduleTime_eq]
      rw [newCalls_of_append _ _ _ rfl]; rfl
    case SetDailyScheduleTime v =>
      simp only [runOp, SetDailyScheduleTime]
      rw [newCalls_of_append _ _ _ rfl]; rfl
  · cases h : (X.WriteRegistryValue IoTDMRegistryRoot IoTDMRegistryLastRebootCmd
      (X.GetCurrentDateTimeString w.ext).1 (X.GetCurrentDateTimeString w.ext).2).1 with
    | error e =>
      rw [ExecRebootNow_of_write_error X w e h, newCalls_of_append _ _ _ rfl]; rfl
    | ok u =>
      cases u
      rw [ExecRebootNow_of_write_ok X w h, newCalls_of_append _ _ _ rfl]; rfl

/-- C9 as written does not hold: on a device whose registry is writable and whose
backend is down, a run of `ExecRebootNow` has no successful exec request, yet it writes
the last-reboot-command value (the registry, empty before, holds the new timestamp
afterwards). -/
theorem persisted_value_written_though_exec_fails :
    execRebootNowSucceeds (newCalls backendDown (runOp fake .ExecRebootNow backendDown)) =
      false ∧
    writesLastRebootCmd (newCalls backendDown (runOp fake .ExecRebootNow backendDown)) =
      true ∧
    backendDown.ext.registry = [] ∧
    (runOp fake .ExecRebootNow backendDown).ext.registry =
      [(IoTDMRegistryRoot, IoTDMRegistryLastRebootCmd, "2017-03-02T08:30:00Z")] ∧
    ¬ (writesLastRebootCmd
          (newCalls backendDown (runOp fake .ExecRebootNow backendDown)) = true ↔
        (Op.ExecRebootNow = Op.ExecRebootNow ∧
          execRebootNowSucceeds
            (newCalls backendDown (runOp fake .ExecRebootNow backendDown)) = true)) := by
  decide

/-- C9, amended.  In every world and for every method, the run writes the persisted
last-reboot-command value if and only if it is a run of `ExecRebootNow` whose registry
write returns normally; that write comes before the exec request and does not depend on
its outcome.  In particular a run with a successful exec request has written the value,
and no other method ever writes it. -/
theorem persisted_value_written_iff_write_succeeds {σ : Type} (X : Externals σ)
    (w : World σ) (op : Op) :
    (writesLastRebootCmd (newCalls w (runOp X op w)) = true ↔
      (op = Op.ExecRebootNow ∧
        succeeded (X.WriteRegistryValue IoTDMRegistryRoot IoTDMRegistryLastRebootCmd
          (X.GetCurrentDateTimeString w.ext).1 (X.GetCurrentDateTimeString w.ext).2).1 =
          true)) ∧
    (execRebootNowSucceeds (newCalls w (runOp X op w)) = true →
      writesLastRebootCmd (newCalls w (runOp X op w)) = true) := by
  cases op
  case ExecRebootNow =>
    cases h : (X.WriteRegistryValue IoTDMRegistryRoot IoTDMRegistryLastRebootCmd
      (X.GetCurrentDateTimeString w.ext).1 (X.GetCurrentDateTimeString w.ext).2).1 with
    | error e =>
      simp only [runOp]
      rw [ExecRebootNow_of_write_error X w e h, newCalls_of_append _ _ _ rfl]
      simp [writesLastRebootCmd, execRebootNowSucceeds, succeeded]
    | ok u =>
      cases u
      simp only [runOp]
      rw [ExecRebootNow_of_write_ok X w h, newCalls_of_append _ _ _ rfl]
      simp [writesLastRebootCmd, execRebootNowSucceeds, succeeded]
  case GetLastRebootCmdTime =>
    cases h : (X.ReadRegistryValue IoTDMRegistryRoot IoTDMRegistryLastRebootCmd w.ext).1 with
    | ok v =>
      simp only [runOp]
      rw [GetLastRebootCmdTime_of_read_ok X w v h, newCalls_of_append _ _ _ rfl]
      simp [writesLastRebootCmd, execRebootNowSucceeds]
    | error e =>
      cases e with
      | DMException what =>
        simp only [runOp]
        rw [GetLastRebootCmdTime_of_DMException X w what h, newCalls_of_append _ _ _ rfl]
        simp [writesLastRebootCmd, execRebootNowSucceeds]
      | other what =>
        simp only [runOp]
        rw [GetLastRebootCmdTime_of_other X w what h, newCalls_of_append _ _ _ rfl]
        simp [writesLastRebootCmd, execRebootNowSucceeds]
  case GetLastRebootTime =>
    simp [runOp, GetLastRebootTime, newCalls, writesLastRebootCmd, execRebootNowSucceeds]
  case GetSingleScheduleTime =>
    simp only [runOp, GetSingleScheduleTime_eq]
    rw [newCalls_of_append _ _ _ rfl]
    simp [writesLastRebootCmd, execRebootNowSucceeds]
  case SetSingleScheduleTime v =>
    simp only [runOp, SetSingleScheduleTime]
    rw [newCalls_of_append _ _ _ rfl]
    simp [writesLastRebootCmd, execRebootNowSucceeds]
  case GetDailyScheduleTime =>
    simp only [runOp, GetDailyScheduleTime_eq]
    rw [newCalls_of_append _ _ _ rfl]
    simp [writesLastRebootCmd, execRebootNowSucceeds]
  case SetDailyScheduleTime v =>
    simp only [runOp, SetDailyScheduleTime]
    rw [newCalls_of_append _ _ _ rfl]
    simp [writesLastRebootCmd, execRebootNowSucceeds]

/-- C10.  Whenever the registry write made by `ExecRebootNow` throws, `ExecRebootNow`
throws that same exception, the write is the only call it makes (no exec request is
issued), and the external state is the one the failed write left. -/
theorem ExecRebootNow_aborts_on_write_failure {σ : Type} (X : Externals σ) (w : World σ)
    (e : Exn)
    (hwrite : (X.WriteRegistryValue IoTDMRegistryRoot IoTDMRegistryLastRebootCmd
      (X.GetCurrentDateTimeString w.ext).1 (X.GetCurrentDateTimeString w.ext).2).1 =
      .error e) :
    (ExecRebootNow X w).1 = .error e ∧
    newCalls w (ExecRebootNow X w).2 =
      [⟨Call.WriteRegistryValue IoTDMRegistryRoot IoTDMRegistryLastRebootCmd
          (X.GetCurrentDateTimeString w.ext).1, false⟩] ∧
    (ExecRebootNow X w).2.ext =
      (X.WriteRegistryValue IoTDMRegistryRoot IoTDMRegistryLastRebootCmd
        (X.GetCurrentDateTimeString w.ext).1 (X.GetCurrentDateTimeString w.ext).2).2 := by
  rw [ExecRebootNow_of_write_error X w e hwrite]
  exact ⟨rfl, newCalls_of_append _ _ _ rfl, rfl⟩

/-- Witness for C10: on a device whose registry rejects writes, `ExecRebootNow` throws
the registry's exception and logs the failed write only, although the backend is up. -/
theorem ExecRebootNow_aborts_on_write_failure_witness :
    readOnlyStore.ext.backendUp = true ∧
    (ExecRebootNow fake readOnlyStore).1 = .error (.DMException "RegSetValueEx failed") ∧
    newCalls readOnlyStore (ExecRebootNow fake readOnlyStore).2 =
      [⟨Call.WriteRegistryValue IoTDMRegistryRoot IoTDMRegistryLastRebootCmd
          (fake.GetCurrentDateTimeString readOnlyStore.ext).1, false⟩] :=
  ⟨by decide,
   (ExecRebootNow_aborts_on_write_failure fake readOnlyStore
      (.DMException "RegSetValueEx failed") (by decide)).1,
   (ExecRebootNow_aborts_on_write_failure fake readOnlyStore
      (.DMException "RegSetValueEx failed") (by decide)).2.1⟩

end RebootCSP
